import Mathlib

/-!
Shallow embedding of `src/server.js` (Express contact-form API).

Each HTTP handler is modelled as a function from an environment (the
behaviour of the external collaborators: S3, CloudWatch, MySQL) and a
request to the ordered list of observable events it produces: object-store
puts, database statements, metric submissions, console logging, and the
HTTP response.  Machine state that the handlers read (env vars, Date.now)
is part of the environment.

JavaScript identifier resolution is modelled explicitly for the one place
it matters: the handlers at lines 87 and 157 bind their request parameter
as `_req`, while the bodies (lines 102, 113, 159, 166) read the identifier
`req`; reading an identifier that is not bound in scope raises a
ReferenceError in JavaScript.
-/

namespace ContactApi

/-- A multipart file as multer presents it: original name, byte buffer,
declared content type, and size in bytes (src/server.js lines 166-172). -/
structure FileUpload where
  originalname : String
  buffer : List Nat
  mimetype : String
  size : Nat
deriving DecidableEq, Repr

/-- The parsed request body fields read at line 159; a missing field is
`none` (JS `undefined`), an empty submitted field is `some ""`. -/
structure ContactBody where
  name : Option String
  email : Option String
  message : Option String
deriving DecidableEq, Repr

/-- An incoming HTTP request as the handlers see it: `path` (read by the
monitoring middleware at lines 102/113), `body`, and the optional
multer file (line 166). -/
structure Request where
  path : String
  body : ContactBody
  file : Option FileUpload
deriving DecidableEq, Repr

/-- A JavaScript error value: `name` (e.g. "ReferenceError") and
`message`.  A JS error with no name is modelled as `name = ""`. -/
structure JsError where
  name : String
  message : String
deriving DecidableEq, Repr

/-- One row of the `submissions` table (spec section 3). -/
structure Row where
  id : Nat
  name : String
  email : String
  message : String
  image_url : Option String
  created_at : Nat
deriving DecidableEq, Repr

/-- One entry of a CloudWatch `MetricData` array: metric name, value,
unit, and the single dimension used throughout src/server.js. -/
structure MetricDatum where
  metricName : String
  value : Nat
  unit : String
  dimName : String
  dimValue : String
deriving DecidableEq, Repr

/-- An HTTP response body, as produced by the various `res....` calls. -/
inductive RespBody where
  | errorMsg (msg : String)
  | success (id : Nat) (imageUrl : Option String)
  | rows (rs : List Row)
  | text (s : String)
deriving DecidableEq, Repr

/-- An observable event of a handler run, in program order:
an S3 PutObject (line 168), a DB INSERT execution (line 177), one
`cloudwatch.putMetricData` submission with its delivery outcome
(lines 93, 133, 185, 211), a `console.error` log, or the HTTP response. -/
inductive Ev where
  | s3Put (bucket key contentType : String) (body : List Nat)
  | dbExecute (name email message : Option String) (imageUrl : Option String)
  | putMetric (ns : String) (data : List MetricDatum) (delivered : Bool)
  | consoleError (msg : String)
  | respond (status : Nat) (body : RespBody)
deriving DecidableEq, Repr

/-- The behaviour of the external collaborators for one request:
`now` is `Date.now()` at line 167; `bucket`/`region` are
`process.env.AWS_S3_BUCKET` / `process.env.AWS_REGION`; `s3Fail` is the
outcome of `s3Client.send`; `insertResult` is the outcome of
`pool.execute` (ok = `insertId`); `table` is the current contents of the
`submissions` table read by `pool.query`; `listFail` makes that query
fail; `metricsFail` is the outcome of `cloudwatch.putMetricData`. -/
structure Env where
  now : Nat
  bucket : String
  region : String
  s3Fail : Option JsError
  insertResult : Except JsError Nat
  table : List Row
  listFail : Option JsError
  metricsFail : Option JsError

/-- JS truthiness of the validation test `!name` at line 161: an absent
field (`undefined`) and the empty string are falsy. -/
def falsy : Option String → Bool
  | none => true
  | some s => s = ""

/-- JavaScript identifier resolution: reading `id` in a scope that binds
`binds` yields the request object if bound, else raises
`ReferenceError: <id> is not defined`. -/
def resolveIdent (binds : List String) (id : String) (r : Request) :
    Except JsError Request :=
  if binds.contains id then Except.ok r
  else Except.error ⟨"ReferenceError", id ++ " is not defined"⟩

/-- Identifiers bound by the POST /api/contact handler at line 157: the
request parameter is named `_req` (with `res`); no `req` is in scope. -/
def contactHandlerBinds : List String := ["_req", "res"]

/-- Identifiers bound by the monitoring middleware at line 87: the request
parameter is named `_req` (with `res`, `next`); no `req` is in scope. -/
def monitoringBinds : List String := ["_req", "res", "next"]

/-- The `Errors` metric datum built at lines 134-146 / 186-198 / 212-224:
value 1, unit Count, dimensioned by ErrorType. -/
def errorsDatum (label : String) : MetricDatum :=
  ⟨"Errors", 1, "Count", "ErrorType", label⟩

/-- The `RequestDuration` datum built at lines 95-105. -/
def durationDatum (path : String) (d : Nat) : MetricDatum :=
  ⟨"RequestDuration", d, "Milliseconds", "Endpoint", path⟩

/-- The `RequestCount` datum built at lines 106-116. -/
def countDatum (path : String) : MetricDatum :=
  ⟨"RequestCount", 1, "Count", "Endpoint", path⟩

/-- A `cloudwatch.putMetricData(...).catch(console.error)` call: the
submission event with its delivery outcome, and on failure the logged
error; the failure is swallowed (lines 133-148, 185-200, 211-226). -/
def putMetricCatch (env : Env) (data : List MetricDatum) : List Ev :=
  match env.metricsFail with
  | none => [Ev.putMetric "ContactFormAPI" data true]
  | some e => [Ev.putMetric "ContactFormAPI" data false, Ev.consoleError e.message]

/-- The try block of the POST /api/contact handler, lines 158-182,
parametrised by the result of resolving the identifier `req` at line 159.
Returns the events performed so far together with either the raised error
or the (status, body) of the response the block produces. -/
def contactTry (env : Env) (reqLookup : Except JsError Request) :
    List Ev × Except JsError (Nat × RespBody) :=
  match reqLookup with
  | Except.error e => ([], Except.error e)
  | Except.ok req =>
    let name := req.body.name
    let email := req.body.email
    let message := req.body.message
    if falsy name || falsy email || falsy message then
      ([], Except.ok (400, RespBody.errorMsg "Name, email, and message are required."))
    else
      match req.file with
      | some f =>
        let fileKey := "contacts/" ++ toString env.now ++ "-" ++ f.originalname
        let upEv := Ev.s3Put env.bucket fileKey f.mimetype f.buffer
        match env.s3Fail with
        | some e => ([upEv], Except.error e)
        | none =>
          let imageUrl : Option String :=
            some ("https://" ++ env.bucket ++ ".s3." ++ env.region ++
              ".amazonaws.com/" ++ fileKey)
          let insEv := Ev.dbExecute name email message imageUrl
          match env.insertResult with
          | Except.error e => ([upEv, insEv], Except.error e)
          | Except.ok id => ([upEv, insEv], Except.ok (200, RespBody.success id imageUrl))
      | none =>
        let insEv := Ev.dbExecute name email message none
        match env.insertResult with
        | Except.error e => ([insEv], Except.error e)
        | Except.ok id => ([insEv], Except.ok (200, RespBody.success id none))

/-- The full POST /api/contact handler body, lines 157-202: run the try
block; on error, log it (line 184), await the ContactSubmissionError
metric with its `.catch` (lines 185-200), then send 500 with the error
message (line 201). -/
def contactRoute (env : Env) (reqLookup : Except JsError Request) : List Ev :=
  match contactTry env reqLookup with
  | (evs, Except.ok (st, body)) => evs ++ [Ev.respond st body]
  | (evs, Except.error e) =>
    evs ++ [Ev.consoleError e.message] ++
      putMetricCatch env [errorsDatum "ContactSubmissionError"] ++
      [Ev.respond 500 (RespBody.errorMsg e.message)]

/-- POST /api/contact as registered at line 157: the parameter is bound as
`_req`, and the body resolves the identifier `req`. -/
def postContact (env : Env) (r : Request) : List Ev :=
  contactRoute env (resolveIdent contactHandlerBinds "req" r)

/-- The ORDER BY clause of the query at line 208, executed by the external
relational store: the rows of the table sorted by created_at descending.
Modelled as an insertion sort under the descending relation. -/
def createdAtDesc (a b : Row) : Prop := b.created_at ≤ a.created_at

instance : DecidableRel createdAtDesc := fun a b => Nat.decLe b.created_at a.created_at

instance : IsTotal Row createdAtDesc :=
  ⟨fun a b => (Nat.le_total b.created_at a.created_at).imp (fun h => h) (fun h => h)⟩

instance : IsTrans Row createdAtDesc :=
  ⟨fun _ _ _ h1 h2 => Nat.le_trans h2 h1⟩

/-- Result set of SELECT * FROM submissions ORDER BY created_at DESC. -/
def orderByCreatedAtDesc (rows : List Row) : List Row :=
  List.insertionSort createdAtDesc rows

/-- The GET /api/submissions handler, lines 206-229: on success respond
200 with the ordered rows verbatim; on store failure await the
FetchSubmissionsError metric (with `.catch`) then send 500 with the error
message. -/
def getSubmissions (env : Env) : List Ev :=
  match env.listFail with
  | none => [Ev.respond 200 (RespBody.rows (orderByCreatedAtDesc env.table))]
  | some e =>
    putMetricCatch env [errorsDatum "FetchSubmissionsError"] ++
      [Ev.respond 500 (RespBody.errorMsg e.message)]

/-- The response-finish callback of the monitoring middleware, lines
90-123: inside try, compute the duration, then build the MetricData array
whose dimensions read `req.path` (lines 102, 113) - the middleware bound
the request as `_req` at line 87 - and await the submission; any error is
caught and logged (lines 120-122). -/
def finishCallback (env : Env) (r : Request) (duration : Nat) : List Ev :=
  match resolveIdent monitoringBinds "req" r with
  | Except.error e => [Ev.consoleError e.message]
  | Except.ok req =>
    match env.metricsFail with
    | none =>
      [Ev.putMetric "ContactFormAPI"
        [durationDatum req.path duration, countDatum req.path] true]
    | some e =>
      [Ev.putMetric "ContactFormAPI"
        [durationDatum req.path duration, countDatum req.path] false,
       Ev.consoleError e.message]

/-- The global error handler middleware, lines 131-151: log the error,
fire the Errors metric dimensioned by `err.name || "UnknownError"` with a
`.catch`, and send 500 with the fixed body. -/
def globalErrorHandler (env : Env) (err : JsError) : List Ev :=
  [Ev.consoleError err.message] ++
    putMetricCatch env
      [errorsDatum (if err.name = "" then "UnknownError" else err.name)] ++
    [Ev.respond 500 (RespBody.errorMsg "Internal Server Error")]

/-!
Express registration order and error dispatch.  The app stack of
src/server.js, in registration order: position 0 `cors()` (line 10),
1 `express.json()` (line 11), 2 the monitoring middleware (line 87),
3 the global error handler (line 131), 4 `GET /` (line 152),
5 `POST /api/contact` with its multer layer (line 157),
6 `GET /api/submissions` (line 206).  Express dispatches an error raised
at position i to the first error-handling (4-ary) layer at a position
greater than i; if none exists the framework default handler responds
(no JSON body of the app, no metric).
-/

/-- Position of `express.json()` in the stack (line 11). -/
def jsonParserPos : Nat := 1

/-- Position of the global error handler in the stack (line 131). -/
def errorHandlerPos : Nat := 3

/-- Position of the POST /api/contact route (with multer) (line 157). -/
def contactRoutePos : Nat := 5

/-- Positions of error-handling (4-ary) layers: only line 131. -/
def errorLayerPositions : List Nat := [errorHandlerPos]

/-- The first error-handling layer after position `raisedAt`, per the
Express dispatch rule. -/
def handlingLayer (raisedAt : Nat) : Option Nat :=
  (errorLayerPositions.filter (fun p => raisedAt < p)).head?

/-- The Express default error handler: a 500 whose body is the framework
text rendering of the error, with no app metric emission. -/
def expressDefaultHandler (err : JsError) : List Ev :=
  [Ev.respond 500 (RespBody.text err.message)]

/-- Dispatch of an error raised at stack position `raisedAt`: handled by
the global error handler when an error layer follows that position,
otherwise by the framework default. -/
def dispatchRaisedError (env : Env) (raisedAt : Nat) (err : JsError) : List Ev :=
  match handlingLayer raisedAt with
  | some _ => globalErrorHandler env err
  | none => expressDefaultHandler err

/-- The multer fileSize limit configured at line 80. -/
def multerFileSizeLimit : Nat := 5 * 1024 * 1024

/-- The error multer raises when an upload exceeds the fileSize limit. -/
def multerFileSizeError : JsError := ⟨"MulterError", "File too large"⟩

/-! Event observers used by the theorems. -/

/-- Whether an event is an object-store upload call. -/
def isS3Put : Ev → Bool
  | Ev.s3Put _ _ _ _ => true
  | _ => false

/-- Whether an event is a database INSERT execution. -/
def isDbExecute : Ev → Bool
  | Ev.dbExecute _ _ _ _ => true
  | _ => false

/-- Number of events satisfying `p`. -/
def countEv (p : Ev → Bool) (evs : List Ev) : Nat := (evs.filter p).length

/-- Whether an event is a metric submission carrying an Errors datum with
the given ErrorType label. -/
def hasErrorsDatum (label : String) : Ev → Bool
  | Ev.putMetric _ data _ => data.any (fun d => decide (d = errorsDatum label))
  | _ => false

/-- Number of error-count metric submissions with the given label. -/
def errorMetricCount (label : String) (evs : List Ev) : Nat :=
  (evs.filter (hasErrorsDatum label)).length

/-- Whether an event is a metric submission carrying a RequestDuration or
RequestCount datum. -/
def isRequestMetric : Ev → Bool
  | Ev.putMetric _ data _ =>
    data.any (fun d => d.metricName = "RequestDuration" || d.metricName = "RequestCount")
  | _ => false

/-- The (status, body) pairs of the response events, in order. -/
def responses (evs : List Ev) : List (Nat × RespBody) :=
  evs.filterMap fun e =>
    match e with
    | Ev.respond s b => some (s, b)
    | _ => none

/-! Concrete fixtures used by closed theorems. -/

/-- A baseline environment where every collaborator succeeds. -/
def env0 : Env :=
  { now := 1700000000000, bucket := "my-bucket", region := "us-east-1",
    s3Fail := none, insertResult := Except.ok 1, table := [],
    listFail := none, metricsFail := none }

/-- An environment whose submissions query fails. -/
def envListFail : Env := { env0 with listFail := some ⟨"Error", "db down"⟩ }

/-- Sample submission row with an early timestamp. -/
def rowA : Row := ⟨1, "a", "a@x.com", "m1", none, 100⟩

/-- Sample submission row with the latest timestamp. -/
def rowB : Row := ⟨2, "b", "b@x.com", "m2", none, 300⟩

/-- Sample submission row with a middle timestamp. -/
def rowC : Row := ⟨3, "c", "c@x.com", "m3", none, 200⟩

/-- An environment whose table was filled out of created_at order. -/
def envTable : Env := { env0 with table := [rowA, rowB, rowC] }

/-- A POST /api/contact request with the name field missing. -/
def reqMissingName : Request :=
  ⟨"/api/contact", ⟨none, some "jane@x.com", some "hi"⟩, none⟩

/-- A valid POST /api/contact request with a small attachment. -/
def validReqWithFile : Request :=
  ⟨"/api/contact", ⟨some "Jane", some "jane@x.com", some "hi"⟩,
    some ⟨"pic.png", [137, 80, 78, 71], "image/png", 4⟩⟩

/-! Helper lemmas shared by the claim theorems. -/

theorem responses_append (a b : List Ev) :
    responses (a ++ b) = responses a ++ responses b := by
  simp [responses, List.filterMap_append]

theorem countEv_append (p : Ev → Bool) (a b : List Ev) :
    countEv p (a ++ b) = countEv p a + countEv p b := by
  simp [countEv, List.filter_append]

theorem errorMetricCount_append (l : String) (a b : List Ev) :
    errorMetricCount l (a ++ b) = errorMetricCount l a + errorMetricCount l b := by
  simp [errorMetricCount, List.filter_append]

theorem hasErrorsDatum_self (l ns : String) (b : Bool) :
    hasErrorsDatum l (Ev.putMetric ns [errorsDatum l] b) = true := by
  simp [hasErrorsDatum]

theorem postContact_eq (env : Env) (r : Request) :
    postContact env r =
      Ev.consoleError "req is not defined" ::
        (putMetricCatch env [errorsDatum "ContactSubmissionError"] ++
          [Ev.respond 500 (RespBody.errorMsg "req is not defined")]) := rfl

/-- C1: the claim says a POST /api/contact request with a missing required
field gets a 400 with the fixed validation body, no upload, no insert and
no error metric.  Evaluating the handler at such an input shows the code
instead raises ReferenceError at line 159 (the handler binds `_req` but
reads `req`), responds 500 with that message, and does emit one
ContactSubmissionError metric; the validation at lines 161-163 is
unreachable. -/
theorem contact_missing_field_gets_500_not_400 :
    postContact env0 reqMissingName =
      [Ev.consoleError "req is not defined",
       Ev.putMetric "ContactFormAPI" [errorsDatum "ContactSubmissionError"] true,
       Ev.respond 500 (RespBody.errorMsg "req is not defined")] ∧
    errorMetricCount "ContactSubmissionError" (postContact env0 reqMissingName) = 1 ∧
    responses (postContact env0 reqMissingName) ≠
      [(400, RespBody.errorMsg "Name, email, and message are required.")] := by
  refine ⟨rfl, rfl, ?_⟩
  decide

/-- C2: for every request and every collaborator behaviour, the POST
/api/contact handler raises ReferenceError before reading any field (it
binds `_req` but reads `req` at line 159), so it performs no object-store
upload and no database insert, always responds 500 with an error body,
and emits exactly one ContactSubmissionError error-count metric. -/
theorem contact_handler_always_reference_error (env : Env) (r : Request) :
    countEv isS3Put (postContact env r) = 0 ∧
    countEv isDbExecute (postContact env r) = 0 ∧
    responses (postContact env r) = [(500, RespBody.errorMsg "req is not defined")] ∧
    errorMetricCount "ContactSubmissionError" (postContact env r) = 1 := by
  rw [postContact_eq]
  cases h : env.metricsFail <;>
    simp [putMetricCatch, h, countEv, errorMetricCount, responses,
      isS3Put, isDbExecute, hasErrorsDatum]

/-- C3: the claim says every request yields exactly one RequestDuration
and one RequestCount metric after the response.  Evaluating the code: the
monitoring middleware binds `_req` at line 87 but its finish callback
reads `req.path` at lines 102/113, so the callback raises ReferenceError
inside its try, logs it, and never submits any request metric. -/
theorem monitoring_never_emits_request_metrics (env : Env) (r : Request) (d : Nat) :
    finishCallback env r d = [Ev.consoleError "req is not defined"] ∧
    countEv isRequestMetric (finishCallback env r d) = 0 := ⟨rfl, rfl⟩

/-- C4: a store failure in GET /api/submissions yields 500 carrying the
failure message plus exactly one FetchSubmissionsError metric; and any
failure of the POST /api/contact try block (which is where an insert
failure would surface) yields 500 carrying the failure message plus
exactly one ContactSubmissionError metric. -/
theorem store_failure_yields_500_and_one_metric :
    (∀ (env : Env) (e : JsError), env.listFail = some e →
      errorMetricCount "FetchSubmissionsError" (getSubmissions env) = 1 ∧
      responses (getSubmissions env) = [(500, RespBody.errorMsg e.message)]) ∧
    (∀ (env : Env) (r : Request) (e : JsError),
      (contactTry env (resolveIdent contactHandlerBinds "req" r)).2 = Except.error e →
      errorMetricCount "ContactSubmissionError" (postContact env r) = 1 ∧
      responses (postContact env r) = [(500, RespBody.errorMsg e.message)]) := by
  constructor
  · intro env e he
    cases h : env.metricsFail <;>
      simp [getSubmissions, he, putMetricCatch, h, errorMetricCount, responses,
        hasErrorsDatum]
  · intro env r e he
    have he2 : e = ⟨"ReferenceError", "req is not defined"⟩ := by
      simpa [contactTry, resolveIdent, contactHandlerBinds] using he.symm
    subst he2
    rw [postContact_eq]
    cases h : env.metricsFail <;>
      simp [putMetricCatch, h, errorMetricCount, responses, hasErrorsDatum]

/-- Witness for C4 at concrete inputs: a failing submissions query and the
always-failing POST try block. -/
theorem store_failure_yields_500_and_one_metric_witness :
    (errorMetricCount "FetchSubmissionsError" (getSubmissions envListFail) = 1 ∧
      responses (getSubmissions envListFail) = [(500, RespBody.errorMsg "db down")]) ∧
    (errorMetricCount "ContactSubmissionError" (postContact env0 reqMissingName) = 1 ∧
      responses (postContact env0 reqMissingName) =
        [(500, RespBody.errorMsg "req is not defined")]) :=
  ⟨store_failure_yields_500_and_one_metric.1 envListFail ⟨"Error", "db down"⟩ rfl,
   store_failure_yields_500_and_one_metric.2 env0 reqMissingName
     ⟨"ReferenceError", "req is not defined"⟩ rfl⟩

/-- C5 counterexample: an exception escaping the POST /api/contact route
stack (here the multer fileSize error, raised at stack position 5) does
NOT reach the global error handler, which was registered at position 3,
before the routes; the framework default responds instead: the body is
not the fixed JSON error body and no error-count metric is emitted. -/
theorem route_error_skips_global_handler :
    dispatchRaisedError env0 contactRoutePos multerFileSizeError =
      [Ev.respond 500 (RespBody.text "File too large")] ∧
    errorMetricCount "MulterError" (dispatchRaisedError env0 contactRoutePos multerFileSizeError) = 0 ∧
    responses (dispatchRaisedError env0 contactRoutePos multerFileSizeError) ≠
      [(500, RespBody.errorMsg "Internal Server Error")] := by
  refine ⟨rfl, rfl, ?_⟩
  decide

/-- C5 amended: only exceptions raised by layers registered before the
global error handler (position 3: cors, express.json, monitoring) reach
it; for those it responds 500 with the fixed body and emits exactly one
error-count metric dimensioned by the exception name, or UnknownError
when the exception has no name. -/
theorem pre_route_error_reaches_global_handler (env : Env) (err : JsError) (i : Nat)
    (h : i < errorHandlerPos) :
    dispatchRaisedError env i err = globalErrorHandler env err ∧
    responses (globalErrorHandler env err) =
      [(500, RespBody.errorMsg "Internal Server Error")] ∧
    errorMetricCount (if err.name = "" then "UnknownError" else err.name)
      (globalErrorHandler env err) = 1 := by
  refine ⟨?_, ?_, ?_⟩
  · simp [dispatchRaisedError, handlingLayer, errorLayerPositions, h]
  · cases hm : env.metricsFail <;>
      simp [globalErrorHandler, putMetricCatch, hm, responses]
  · cases hm : env.metricsFail <;>
      simp [globalErrorHandler, putMetricCatch, hm, errorMetricCount, hasErrorsDatum]

/-- Witness for C5 amended: a JSON body-parse error raised by
express.json (position 1) reaches the global error handler. -/
theorem pre_route_error_reaches_global_handler_witness :
    dispatchRaisedError env0 jsonParserPos ⟨"SyntaxError", "Unexpected token"⟩ =
      globalErrorHandler env0 ⟨"SyntaxError", "Unexpected token"⟩ ∧
    responses (globalErrorHandler env0 ⟨"SyntaxError", "Unexpected token"⟩) =
      [(500, RespBody.errorMsg "Internal Server Error")] ∧
    errorMetricCount "SyntaxError"
      (globalErrorHandler env0 ⟨"SyntaxError", "Unexpected token"⟩) = 1 := by
  have h := pre_route_error_reaches_global_handler env0
    ⟨"SyntaxError", "Unexpected token"⟩ jsonParserPos (by decide)
  simpa using h

/-- C6: the claim says a valid request with a small attachment performs
exactly one upload before one insert.  Evaluating the handler at such an
input: the ReferenceError at line 159 aborts the try block first, so no
upload and no insert ever happens and the response is 500. -/
theorem contact_upload_insert_never_reached :
    countEv isS3Put (postContact env0 validReqWithFile) = 0 ∧
    countEv isDbExecute (postContact env0 validReqWithFile) = 0 ∧
    responses (postContact env0 validReqWithFile) =
      [(500, RespBody.errorMsg "req is not defined")] ∧
    (validReqWithFile.file.map FileUpload.size).getD 0 ≤ multerFileSizeLimit := by
  decide

/-- Support for C6: lines 161-182 taken on their own (the try block with
`req` resolved to the request) do implement the claimed behaviour: with a
valid body and an attachment, on upload success the events are exactly one
upload followed by one insert, and on upload failure the upload is the
only event and the block fails with that error (no insert attempted). -/
theorem contactTry_intended_upload_precedes_insert (env : Env) (r : Request) (f : FileUpload)
    (hf : r.file = some f)
    (hv : (falsy r.body.name || falsy r.body.email || falsy r.body.message) = false) :
    (env.s3Fail = none →
      (contactTry env (Except.ok r)).1 =
        [Ev.s3Put env.bucket ("contacts/" ++ toString env.now ++ "-" ++ f.originalname)
          f.mimetype f.buffer,
         Ev.dbExecute r.body.name r.body.email r.body.message
           (some ("https://" ++ env.bucket ++ ".s3." ++ env.region ++
             ".amazonaws.com/" ++ ("contacts/" ++ toString env.now ++ "-" ++ f.originalname)))]) ∧
    (∀ e, env.s3Fail = some e →
      (contactTry env (Except.ok r)).1 =
        [Ev.s3Put env.bucket ("contacts/" ++ toString env.now ++ "-" ++ f.originalname)
          f.mimetype f.buffer] ∧
      (contactTry env (Except.ok r)).2 = Except.error e) := by
  constructor
  · intro hs
    cases hi : env.insertResult <;> simp [contactTry, hf, hv, hs, hi]
  · intro e hs
    simp [contactTry, hf, hv, hs]

/-- C7: the claim says an attachment produces the key
contacts/<epoch>-<original-filename>, a returned imageUrl built from
bucket, region and that key, and a stored image_url equal to it.
Evaluating the handler: the run produces no upload, no insert, and a 500
body, so no key, no returned imageUrl and no stored image_url exist. -/
theorem contact_attachment_key_url_never_produced :
    postContact env0 validReqWithFile =
      [Ev.consoleError "req is not defined",
       Ev.putMetric "ContactFormAPI" [errorsDatum "ContactSubmissionError"] true,
       Ev.respond 500 (RespBody.errorMsg "req is not defined")] ∧
    responses (postContact env0 validReqWithFile) ≠
      [(200, RespBody.success 1
        (some "https://my-bucket.s3.us-east-1.amazonaws.com/contacts/1700000000000-pic.png"))] := by
  refine ⟨rfl, ?_⟩
  decide

/-- Support for C7: the try block with `req` resolved (lines 166-182 as
written) builds exactly the claimed key and URL and hands the same URL to
the insert and to the success response. -/
theorem contactTry_intended_key_and_url (env : Env) (r : Request) (f : FileUpload) (id : Nat)
    (hf : r.file = some f)
    (hv : (falsy r.body.name || falsy r.body.email || falsy r.body.message) = false)
    (hs : env.s3Fail = none) (hi : env.insertResult = Except.ok id) :
    contactTry env (Except.ok r) =
      ([Ev.s3Put env.bucket ("contacts/" ++ toString env.now ++ "-" ++ f.originalname)
          f.mimetype f.buffer,
        Ev.dbExecute r.body.name r.body.email r.body.message
          (some ("https://" ++ env.bucket ++ ".s3." ++ env.region ++
            ".amazonaws.com/" ++ ("contacts/" ++ toString env.now ++ "-" ++ f.originalname)))],
       Except.ok (200, RespBody.success id
         (some ("https://" ++ env.bucket ++ ".s3." ++ env.region ++
           ".amazonaws.com/" ++ ("contacts/" ++ toString env.now ++ "-" ++ f.originalname))))) := by
  simp [contactTry, hf, hv, hs, hi]

/-- C8: GET /api/submissions responds 200 with the rows of the table
ordered by created_at descending: the result is a permutation of the
stored rows (all rows, verbatim) and is sorted descending, for any table
contents, i.e. any insertion order. -/
theorem submissions_sorted_desc (env : Env) (h : env.listFail = none) :
    getSubmissions env =
      [Ev.respond 200 (RespBody.rows (orderByCreatedAtDesc env.table))] ∧
    (orderByCreatedAtDesc env.table).Perm env.table ∧
    List.Sorted createdAtDesc (orderByCreatedAtDesc env.table) :=
  ⟨by simp [getSubmissions, h],
   List.perm_insertionSort createdAtDesc env.table,
   List.sorted_insertionSort createdAtDesc env.table⟩

/-- Witness for C8 on a concrete table inserted out of order. -/
theorem submissions_sorted_desc_witness :
    (getSubmissions envTable =
      [Ev.respond 200 (RespBody.rows (orderByCreatedAtDesc envTable.table))] ∧
     (orderByCreatedAtDesc envTable.table).Perm envTable.table ∧
     List.Sorted createdAtDesc (orderByCreatedAtDesc envTable.table)) ∧
    orderByCreatedAtDesc envTable.table = [rowB, rowC, rowA] :=
  ⟨submissions_sorted_desc envTable rfl, by decide⟩

/-- C9: a metrics-sink failure never changes any response: each handler
responds identically whether the sink fails or not, the finish callback
produces no response at all, and the sink failure is logged via
console.error wherever a metric call is made. -/
theorem telemetry_failure_logged_never_propagated (env : Env) (r : Request) (d : Nat)
    (e f : JsError) :
    responses (postContact { env with metricsFail := some e } r) =
      responses (postContact { env with metricsFail := none } r) ∧
    responses (getSubmissions { env with metricsFail := some e }) =
      responses (getSubmissions { env with metricsFail := none }) ∧
    responses (globalErrorHandler { env with metricsFail := some e } f) =
      responses (globalErrorHandler { env with metricsFail := none } f) ∧
    responses (finishCallback { env with metricsFail := some e } r d) = [] ∧
    Ev.consoleError e.message ∈ postContact { env with metricsFail := some e } r ∧
    (env.listFail = some f →
      Ev.consoleError e.message ∈ getSubmissions { env with metricsFail := some e }) := by
  refine ⟨?_, ?_, ?_, rfl, ?_, ?_⟩
  · rw [postContact_eq, postContact_eq]
    simp [putMetricCatch, responses]
  · cases hl : env.listFail <;>
      simp [getSubmissions, hl, putMetricCatch, responses]
  · simp [globalErrorHandler, putMetricCatch, responses]
  · rw [postContact_eq]
    simp [putMetricCatch]
  · intro hl
    simp [getSubmissions, hl, putMetricCatch]

/-- Witness for C9: with a failing sink, the POST handler and a failing
GET both log the sink error locally. -/
theorem telemetry_failure_logged_never_propagated_witness :
    Ev.consoleError "cw down" ∈
      postContact { envListFail with metricsFail := some ⟨"Error", "cw down"⟩ } reqMissingName ∧
    Ev.consoleError "cw down" ∈
      getSubmissions { envListFail with metricsFail := some ⟨"Error", "cw down"⟩ } :=
  ⟨(telemetry_failure_logged_never_propagated envListFail reqMissingName 5
      ⟨"Error", "cw down"⟩ ⟨"Error", "db down"⟩).2.2.2.2.1,
   (telemetry_failure_logged_never_propagated envListFail reqMissingName 5
      ⟨"Error", "cw down"⟩ ⟨"Error", "db down"⟩).2.2.2.2.2 rfl⟩

/-- C10: in both route handlers the failure path awaits the error-count
metric call (including its `.catch` settling) before the 500 response is
sent: the events of each failing run are exactly the settled metric
submission events followed by the response event. -/
theorem error_metric_settles_before_500 :
    (∀ (env : Env) (r : Request),
      postContact env r =
        Ev.consoleError "req is not defined" ::
          (putMetricCatch env [errorsDatum "ContactSubmissionError"] ++
            [Ev.respond 500 (RespBody.errorMsg "req is not defined")])) ∧
    (∀ (env : Env) (e : JsError), env.listFail = some e →
      getSubmissions env =
        putMetricCatch env [errorsDatum "FetchSubmissionsError"] ++
          [Ev.respond 500 (RespBody.errorMsg e.message)]) := by
  refine ⟨postContact_eq, ?_⟩
  intro env e he
  simp [getSubmissions, he]

/-- Witness for C10 on a concrete failing submissions query. -/
theorem error_metric_settles_before_500_witness :
    getSubmissions envListFail =
      putMetricCatch envListFail [errorsDatum "FetchSubmissionsError"] ++
        [Ev.respond 500 (RespBody.errorMsg "db down")] :=
  error_metric_settles_before_500.2 envListFail ⟨"Error", "db down"⟩ rfl

end ContactApi
